import Mathlib

/-
  Shallow embedding of bucketsync's node/extent persistence core
  (src/lib/filesystem.go) and verification of its specification.

  Modelling conventions:
  * Go byte slices become `List Nat`; machine integers (int64, uint32) carry
    no arithmetic in this core, so they become plain `Int` / `Nat`.
  * The `Session` back-reference is replaced by explicit parameters: the
    content-addressing function `kg : Bytes → ObjectKey` (Session.KeyGen) and
    the store state `S3`.  The logger is dropped (diagnostics only).
  * Mutation of structs through pointers becomes explicit state passing:
    each operation returns the updated extent/file and store, together with
    an `Option Err` (none = success), mirroring Go's `error` return.
  * The store is an explicit association list from keys to blobs, with
    fault-injection lists (keys whose Upload/Download fail) and a log of the
    network operations performed, so that claims counting uploads/downloads
    are expressible.
  * `File.Save`'s goroutine fan-out is sequentialized in program order and
    every launched task runs to completion before the call returns — the
    schedule in which all goroutines finish before the `select` observes the
    outcome.  Early return with tasks still in flight is a scheduling matter
    outside this embedding.
-/

/-- Byte strings (Go `[]byte`): lists of byte values. -/
abbrev Bytes := List Nat

/-- ObjectKey. Modelled from the spec: an abstract, immutable string key
(the `ObjectKey` type is declared outside the given source file). -/
abbrev ObjectKey := String

/-- Errors returned by store operations and propagated by this core
(Go `error`), modelled as their message strings. -/
abbrev Err := String

/-- Meta is common struct for directory, file and symlink
(filesystem.go lines 15-23).  `time.Time` values are abstract instants,
modelled as `Int`. -/
structure Meta where
  Size : Int
  Mode : Nat
  UID : Nat
  GID : Nat
  Atime : Int
  Ctime : Int
  Mtime : Int
deriving DecidableEq, Repr

/-- The persisted JSON record of a Directory: its exported fields
`key`, `meta`, `children` (filesystem.go lines 31-36). -/
structure DirRecord where
  key : ObjectKey
  meta : Meta
  children : List (String × ObjectKey)
deriving DecidableEq, Repr

/-- The persisted JSON record of a File: its exported fields `key`, `meta`,
`extent_size`, and the extent map, in which each Extent contributes only its
exported `Key` field (filesystem.go lines 46-53, 102-107). -/
structure FileRecord where
  key : ObjectKey
  meta : Meta
  extent_size : Int
  extent : List (Int × ObjectKey)
deriving DecidableEq, Repr

/-- The persisted JSON record of a SymLink: `key`, `meta`, `linkto`
(filesystem.go lines 127-132). -/
structure SymRecord where
  key : ObjectKey
  meta : Meta
  linkto : String
deriving DecidableEq, Repr

/-- A stored blob: either a raw byte blob (extent bodies) or the JSON text of
a node record, modelled structurally by the record of persisted fields (the
Go JSON encoding of these structs is injective and invertible on those
fields, so the record itself stands for its serialized text). -/
inductive Blob where
  | bytes (b : Bytes)
  | dir (r : DirRecord)
  | file (r : FileRecord)
  | sym (r : SymRecord)
deriving DecidableEq, Repr

/-- The raw byte content a `Download` of this blob hands back.  Extent bodies
are raw bytes; for record blobs the bytes are the JSON text, rendered here
through the derived `Repr` (an injective concrete text; no operation of this
core ever reads a record blob as extent bytes, so only totality matters). -/
def Blob.data : Blob → Bytes
  | Blob.bytes b => b
  | Blob.dir r => (reprStr r).toList.map Char.toNat
  | Blob.file r => (reprStr r).toList.map Char.toNat
  | Blob.sym r => (reprStr r).toList.map Char.toNat

/-- Network operations recorded by the store model: durable writes and
downloads, plus existence checks. -/
inductive StoreOp where
  | upload (k : ObjectKey)
  | download (k : ObjectKey)
  | exist (k : ObjectKey)
deriving DecidableEq, Repr

/-- The remote object store.  Modelled from the spec (§6 store collaborator
contract; the S3 client is declared outside the given source file):
`objects` is the key→blob content, `failUpload` / `failDownload` inject
deterministic faults, and `log` records performed network operations. -/
structure S3 where
  objects : List (ObjectKey × Blob)
  failUpload : List ObjectKey
  failDownload : List ObjectKey
  log : List StoreOp
deriving DecidableEq, Repr

/-- Content stored under a key, if any. -/
def S3.lookup (s : S3) (k : ObjectKey) : Option Blob :=
  (s.objects.find? (fun p => p.1 == k)).map (fun p => p.2)

/-- IsExist. Modelled from the spec: boolean presence check for a key (§6). -/
def S3.IsExist (s : S3) (k : ObjectKey) : Bool × S3 :=
  ((s.lookup k).isSome, { s with log := s.log ++ [StoreOp.exist k] })

/-- Upload. Modelled from the spec: durably stores content at key, error on
failure (§6).  A failing upload leaves the store contents unchanged. -/
def S3.Upload (s : S3) (k : ObjectKey) (v : Blob) : Option Err × S3 :=
  if s.failUpload.contains k then (some "upload failed", s)
  else (none, { s with
      objects := (k, v) :: s.objects.filter (fun p => p.1 != k),
      log := s.log ++ [StoreOp.upload k] })

/-- The outcome of downloading a key: the content previously stored there,
or an error when the key is absent or its download is set to fail. -/
def S3.downloadResult (s : S3) (k : ObjectKey) : Except Err Blob :=
  if s.failDownload.contains k then Except.error "download failed"
  else
    match s.lookup k with
    | none => Except.error "not found"
    | some v => Except.ok v

/-- Download. Modelled from the spec: returns the content previously stored
at the key; error if absent or on failure (§6).  Every call is one network
round-trip, so it is always logged. -/
def S3.Download (s : S3) (k : ObjectKey) : Except Err Blob × S3 :=
  (s.downloadResult k, { s with log := s.log ++ [StoreOp.download k] })

/-- UploadWithCache. Modelled from the spec: stores content at key unless
already present under that key, in which case it is a no-op success
(§4.5, §6). -/
def S3.UploadWithCache (s : S3) (k : ObjectKey) (v : Blob) : Option Err × S3 :=
  if (s.lookup k).isSome then (none, s) else s.Upload k v

/-- Extent (filesystem.go lines 102-107): exported content-address `Key`,
unexported lazily-loaded `body` and `dirty` flag. -/
structure Extent where
  Key : ObjectKey
  body : Bytes
  dirty : Bool
deriving DecidableEq, Repr

/-- Extent.CurrentKey (filesystem.go lines 109-111): the content-address of
the in-memory body, via the session's key generator. -/
def Extent.CurrentKey (kg : Bytes → ObjectKey) (e : Extent) : ObjectKey :=
  kg e.body

/-- Extent.Fill (filesystem.go lines 113-125): if dirty or the body is
non-empty, report success without touching the store; otherwise download the
blob at the recorded `Key` and install its bytes as the body. -/
def Extent.Fill (s3 : S3) (e : Extent) : Option Err × Extent × S3 :=
  if e.dirty || e.body.length != 0 then (none, e, s3)
  else
    match (s3.Download e.Key).1 with
    | Except.error err => (some err, e, (s3.Download e.Key).2)
    | Except.ok v => (none, { e with body := v.data }, (s3.Download e.Key).2)

/-- Directory (filesystem.go lines 31-36): key, metadata, child-name→key
mapping (the Go map is modelled as an association list). -/
structure Directory where
  Key : ObjectKey
  Meta : Meta
  FileMeta : List (String × ObjectKey)
deriving DecidableEq, Repr

/-- json.Marshal of a Directory: the record of its exported fields. -/
def marshalDir (o : Directory) : DirRecord :=
  { key := o.Key, meta := o.Meta, children := o.FileMeta }

/-- Directory.Save (filesystem.go lines 38-44): marshal and cache-aware
upload at the directory's own key. -/
def Directory.Save (s3 : S3) (o : Directory) : Option Err × S3 :=
  s3.UploadWithCache o.Key (Blob.dir (marshalDir o))

/-- SymLink (filesystem.go lines 127-132). -/
structure SymLink where
  Key : ObjectKey
  Meta : Meta
  LinkTo : String
deriving DecidableEq, Repr

/-- json.Marshal of a SymLink: the record of its exported fields. -/
def marshalSym (o : SymLink) : SymRecord :=
  { key := o.Key, meta := o.Meta, linkto := o.LinkTo }

/-- SymLink.Save (filesystem.go lines 134-140): marshal and cache-aware
upload at its own key. -/
def SymLink.Save (s3 : S3) (o : SymLink) : Option Err × S3 :=
  s3.UploadWithCache o.Key (Blob.sym (marshalSym o))

/-- File (filesystem.go lines 46-53): key, metadata, extent size, the
extent-index→Extent map (modelled as an association list in a fixed
iteration order), and the unexported, unused `dirty` flag. -/
structure File where
  Key : ObjectKey
  Meta : Meta
  ExtentSize : Int
  Extent : List (Int × Extent)
  dirty : Bool
deriving DecidableEq, Repr

/-- json.Marshal of a File: exported fields only; each Extent in the map
contributes exactly its exported `Key` field. -/
def marshalFile (o : File) : FileRecord :=
  { key := o.Key, meta := o.Meta, extent_size := o.ExtentSize,
    extent := o.Extent.map (fun p => (p.1, p.2.Key)) }

/-- The body of one extent-save goroutine (filesystem.go lines 61-78): skip
when clean; compute the current content-address; skip the upload when the
store already has that key (note: the dirty flag is NOT cleared on this
path, and the computed key is never written back to `e.Key`); otherwise
upload the body under the computed key and clear the dirty flag. -/
def saveOneExtent (kg : Bytes → ObjectKey) (s3 : S3) (e : Extent) :
    Option Err × Extent × S3 :=
  if !e.dirty then (none, e, s3)
  else
    if (s3.IsExist (e.CurrentKey kg)).1 then
      (none, e, (s3.IsExist (e.CurrentKey kg)).2)
    else
      match ((s3.IsExist (e.CurrentKey kg)).2.Upload (e.CurrentKey kg) (Blob.bytes e.body)).1 with
      | some err =>
          (some err, e, ((s3.IsExist (e.CurrentKey kg)).2.Upload (e.CurrentKey kg) (Blob.bytes e.body)).2)
      | none =>
          (none, { e with dirty := false },
           ((s3.IsExist (e.CurrentKey kg)).2.Upload (e.CurrentKey kg) (Blob.bytes e.body)).2)

/-- First error wins: the error delivered on the shared error channel is the
one from the earliest failing task in the sequentialized order. -/
def firstErr : Option Err → Option Err → Option Err
  | some e, _ => some e
  | none, e2 => e2

/-- The goroutine fan-out of File.Save (filesystem.go lines 59-83),
sequentialized in program order with every task running to completion:
returns the first error (if any), the updated extents, and the store. -/
def saveExtents (kg : Bytes → ObjectKey) :
    List (Int × Extent) → S3 → Option Err × List (Int × Extent) × S3
  | [], s3 => (none, [], s3)
  | p :: rest, s3 =>
      (firstErr (saveOneExtent kg s3 p.2).1
         (saveExtents kg rest (saveOneExtent kg s3 p.2).2.2).1,
       (p.1, (saveOneExtent kg s3 p.2).2.1) ::
         (saveExtents kg rest (saveOneExtent kg s3 p.2).2.2).2.1,
       (saveExtents kg rest (saveOneExtent kg s3 p.2).2.2).2.2)

/-- The success branch of File.Save (filesystem.go lines 88-97): marshal the
file and cache-aware upload at the file's own key.  (json.Marshal cannot
fail on these struct types, so marshalling is total.) -/
def File.saveMeta (o : File) (s3 : S3) : Option Err × File × S3 :=
  ((s3.UploadWithCache o.Key (Blob.file (marshalFile o))).1, o,
   (s3.UploadWithCache o.Key (Blob.file (marshalFile o))).2)

/-- File.Save (filesystem.go lines 55-100): run all extent-save tasks; on
any task error return that error without uploading the file's metadata
blob; on success upload the marshaled file at its own key. -/
def File.Save (kg : Bytes → ObjectKey) (s3 : S3) (o : File) :
    Option Err × File × S3 :=
  match (saveExtents kg o.Extent s3).1 with
  | some err =>
      (some err, { o with Extent := (saveExtents kg o.Extent s3).2.1 },
       (saveExtents kg o.Extent s3).2.2)
  | none =>
      File.saveMeta { o with Extent := (saveExtents kg o.Extent s3).2.1 }
        (saveExtents kg o.Extent s3).2.2

/-- NewMeta (filesystem.go lines 142-153), with `time.Now()` and the FUSE
context supplied as explicit arguments. -/
def NewMeta (mode : Nat) (uid gid : Nat) (now : Int) : Meta :=
  { Mode := mode, Size := 0, UID := uid, GID := gid,
    Atime := now, Ctime := now, Mtime := now }

/-- json.Unmarshal of a downloaded blob into a Directory's persisted
fields. -/
def decodeDir : Blob → Option DirRecord
  | Blob.dir r => some r
  | _ => none

/-- json.Unmarshal of a downloaded blob into a File's persisted fields. -/
def decodeFile : Blob → Option FileRecord
  | Blob.file r => some r
  | _ => none

/-- json.Unmarshal of a downloaded blob into a SymLink's persisted
fields. -/
def decodeSym : Blob → Option SymRecord
  | Blob.sym r => some r
  | _ => none

/-- The clean-extent invariant of the spec (§3): a non-dirty extent whose
body is loaded holds exactly the content addressed by its `Key`. -/
def cleanInv (kg : Bytes → ObjectKey) (e : Extent) : Prop :=
  e.dirty = false → e.body ≠ [] → e.Key = kg e.body

instance (kg : Bytes → ObjectKey) (e : Extent) : Decidable (cleanInv kg e) := by
  unfold cleanInv
  infer_instance

/-- Number of durable writes the store performed at a given key. -/
def uploadCount (l : List StoreOp) (k : ObjectKey) : Nat :=
  (l.filter (fun op => op == StoreOp.upload k)).length

/-
  Concrete instances used by the closed theorems below.  `kg0` is a concrete
  content-addressing function: injective on byte strings, and its values
  (strings starting with the letter a followed by x/y runs) are distinct
  from every literal node key used here, matching the spec's requirement
  that a content-address is determined by the bytes alone.
-/

/-- Character rendering of a byte string used by the concrete
content-addressing function `kg0`. -/
def addrChars : Bytes → List Char
  | [] => []
  | n :: rest => 'x' :: (List.replicate n 'y' ++ addrChars rest)

/-- A concrete content-addressing function for closed theorems. -/
def kg0 (b : Bytes) : ObjectKey := String.mk ('a' :: addrChars b)

/-- A concrete metadata value. -/
def meta0 : Meta :=
  { Size := 10, Mode := 420, UID := 1000, GID := 1000, Atime := 1, Ctime := 2, Mtime := 3 }

/-- A dirty extent whose recorded key "old" is stale: the current
content-address of its body is kg0 [1, 2, 3] ≠ "old". -/
def ext0 : Extent := { Key := "old", body := [1, 2, 3], dirty := true }

/-- ext0 after a successful flush: dirty cleared, `Key` untouched. -/
def extAfter0 : Extent := { Key := "old", body := [1, 2, 3], dirty := false }

/-- A file holding the single dirty extent ext0 at index 0. -/
def file0 : File :=
  { Key := "F", Meta := meta0, ExtentSize := 4096, Extent := [(0, ext0)], dirty := false }

/-- The empty store. -/
def s3empty : S3 := { objects := [], failUpload := [], failDownload := [], log := [] }

/-- First of two dirty extents with bit-identical bodies. -/
def extA : Extent := { Key := "a", body := [7], dirty := true }

/-- Second of two dirty extents with bit-identical bodies. -/
def extB : Extent := { Key := "b", body := [7], dirty := true }

/-- A file holding the two bit-identical dirty extents extA and extB. -/
def file2 : File :=
  { Key := "G", Meta := meta0, ExtentSize := 4096, Extent := [(0, extA), (1, extB)], dirty := false }

/-- The pre-save metadata record of file4 already present in the store. -/
def oldRec : FileRecord :=
  { key := "H", meta := meta0, extent_size := 4096, extent := [(0, "p"), (1, "q")] }

/-- A dirty extent whose upload is set to fail. -/
def extP : Extent := { Key := "p", body := [9], dirty := true }

/-- A dirty extent whose upload succeeds. -/
def extQ : Extent := { Key := "q", body := [8], dirty := true }

/-- A file with two dirty extents, the first of which fails to upload. -/
def file4 : File :=
  { Key := "H", Meta := meta0, ExtentSize := 4096, Extent := [(0, extP), (1, extQ)], dirty := false }

/-- A store already holding file4's pre-save metadata record, where the
upload of extP's content-address deterministically fails. -/
def s3pre : S3 :=
  { objects := [("H", Blob.file oldRec)], failUpload := [kg0 [9]], failDownload := [], log := [] }

/-- A clean, unfilled extent whose stored blob is empty. -/
def extEmpty : Extent := { Key := "k", body := [], dirty := false }

/-- A store holding an empty byte blob under key "k". -/
def s3k : S3 := { objects := [("k", Blob.bytes [])], failUpload := [], failDownload := [], log := [] }

/-- A clean, unfilled extent whose stored blob is non-empty. -/
def extK2 : Extent := { Key := "k2", body := [], dirty := false }

/-- A store holding the byte blob [5] under key "k2". -/
def s3k2 : S3 := { objects := [("k2", Blob.bytes [5])], failUpload := [], failDownload := [], log := [] }

/-- extK2 after its first successful Fill. -/
def extFilled2 : Extent := { Key := "k2", body := [5], dirty := false }

/-- s3k2 after the one download performed by the first Fill. -/
def s3k2after : S3 := { s3k2 with log := [StoreOp.download "k2"] }

/-- A clean, unfilled extent whose recorded key has no object in the store. -/
def extNF : Extent := { Key := "nf", body := [], dirty := false }

/-- A dirty extent with an empty body. -/
def extDE : Extent := { Key := "z", body := [], dirty := true }

/-- The stale directory record sitting at key "D0" before Save. -/
def oldDirRec : DirRecord := { key := "D0", meta := meta0, children := [] }

/-- A directory whose own key is already occupied by oldDirRec. -/
def dirC : Directory := { Key := "D0", Meta := meta0, FileMeta := [("a", "x")] }

/-- A store already holding a stale record at dirC's own key. -/
def s3d0 : S3 :=
  { objects := [("D0", Blob.dir oldDirRec)], failUpload := [], failDownload := [], log := [] }

/-- A directory saved into an empty store. -/
def dirW : Directory := { Key := "D1", Meta := meta0, FileMeta := [("a", "x")] }

/-- A symlink saved into an empty store. -/
def symW : SymLink := { Key := "S1", Meta := meta0, LinkTo := "target" }

/-
  Helper lemmas shared by the claim theorems.
-/

/-- Download leaves everything but the log unchanged. -/
theorem downloadResult_log (s : S3) (L : List StoreOp) (k : ObjectKey) :
    S3.downloadResult { s with log := L } k = s.downloadResult k := rfl

/-- Fill never writes the extent's `Key` field. -/
theorem fill_key (s3 : S3) (e : Extent) : ((Extent.Fill s3 e).2.1).Key = e.Key := by
  unfold Extent.Fill
  split
  · rfl
  · split <;> rfl

/-- One extent-save task never writes the extent's `Key` field. -/
theorem saveOne_key (kg : Bytes → ObjectKey) (s3 : S3) (e : Extent) :
    ((saveOneExtent kg s3 e).2.1).Key = e.Key := by
  unfold saveOneExtent
  split
  · rfl
  · split
    · rfl
    · split <;> rfl

/-- The extent fan-out preserves every extent's index and `Key` field. -/
theorem saveExtents_keys (kg : Bytes → ObjectKey) (l : List (Int × Extent)) (s3 : S3) :
    ((saveExtents kg l s3).2.1).map (fun p => (p.1, p.2.Key)) =
      l.map (fun p => (p.1, p.2.Key)) := by
  induction l generalizing s3 with
  | nil => rfl
  | cons p rest ih =>
      simp only [saveExtents, List.map_cons, ih, saveOne_key, List.map]

/-- Removing the entries at one key does not change the first hit at a
different key. -/
theorem find?_filter_ne (os : List (ObjectKey × Blob)) (k key : ObjectKey) (h : k ≠ key) :
    (os.filter (fun p => p.1 != key)).find? (fun p => p.1 == k) =
      os.find? (fun p => p.1 == k) := by
  induction os with
  | nil => rfl
  | cons p os ih =>
      by_cases hpk : p.1 = key
      · have h1 : (p.1 != key) = false := by simp [hpk]
        have h2 : (p.1 == k) = false := by
          simp [hpk]
          exact Ne.symm h
        simp [List.filter_cons, h1, List.find?_cons, h2, ih]
      · have h1 : (p.1 != key) = true := by simp [hpk]
        by_cases hpk2 : p.1 = k
        · simp [List.filter_cons, h1, List.find?_cons, hpk2, h]
        · have h2 : (p.1 == k) = false := by simp [hpk2]
          simp [List.filter_cons, h1, List.find?_cons, h2, ih]

/-- Uploading at one key does not change what is stored at another key. -/
theorem lookup_upload_ne (s : S3) (key k : ObjectKey) (v : Blob) (h : k ≠ key) :
    ((s.Upload key v).2).lookup k = s.lookup k := by
  unfold S3.Upload
  split
  · rfl
  · have hk : (key == k) = false := by simp [Ne.symm h]
    unfold S3.lookup
    simp only [List.find?_cons, hk, find?_filter_ne _ _ _ h]

/-- A successful cache-aware upload at an absent key stores exactly the
given blob there. -/
theorem lookup_uploadWithCache_self (s : S3) (k : ObjectKey) (v : Blob)
    (h0 : s.lookup k = none) (hsucc : (s.UploadWithCache k v).1 = none) :
    ((s.UploadWithCache k v).2).lookup k = some v := by
  unfold S3.UploadWithCache at hsucc ⊢
  rw [h0] at hsucc ⊢
  simp only [Option.isSome_none, Bool.false_eq_true, if_false] at hsucc ⊢
  unfold S3.Upload at hsucc ⊢
  split at hsucc
  · simp at hsucc
  · rename_i hfail
    simp only [hfail, if_false]
    unfold S3.lookup
    simp [List.find?_cons]

/-- One extent-save task writes only at the extent's content-address. -/
theorem saveOne_lookup_ne (kg : Bytes → ObjectKey) (s3 : S3) (e : Extent) (k : ObjectKey)
    (h : kg e.body ≠ k) :
    ((saveOneExtent kg s3 e).2.2).lookup k = s3.lookup k := by
  unfold saveOneExtent
  split
  · rfl
  · split
    · rfl
    · split
      · exact lookup_upload_ne _ _ _ _ (Ne.symm h)
      · exact lookup_upload_ne _ _ _ _ (Ne.symm h)

/-- The extent fan-out writes only at the extents' content-addresses. -/
theorem saveExtents_lookup_ne (kg : Bytes → ObjectKey) (l : List (Int × Extent)) (s3 : S3)
    (k : ObjectKey) (h : ∀ p ∈ l, kg p.2.body ≠ k) :
    ((saveExtents kg l s3).2.2).lookup k = s3.lookup k := by
  induction l generalizing s3 with
  | nil => rfl
  | cons p rest ih =>
      have hhd : kg p.2.body ≠ k := h p (List.mem_cons_self p rest)
      have htl : ∀ q ∈ rest, kg q.2.body ≠ k := fun q hq => h q (List.mem_cons_of_mem p hq)
      calc ((saveExtents kg (p :: rest) s3).2.2).lookup k
          = ((saveExtents kg rest (saveOneExtent kg s3 p.2).2.2).2.2).lookup k := rfl
        _ = ((saveOneExtent kg s3 p.2).2.2).lookup k := ih _ htl
        _ = s3.lookup k := saveOne_lookup_ne kg s3 p.2 k hhd

/-
  Claim theorems.
-/

/-- C1 (code bug): a File with one dirty extent whose body is absent from the
store; Save() uploads the body under its content-address kg0 [1, 2, 3] and
clears the dirty flag, but the uploaded metadata record still carries the
extent's stale recorded key "old" — it does NOT equal the freshly computed
content-address of the body, because File.Save never writes the computed key
back into Extent.Key before marshalling. -/
theorem c1_save_records_stale_key :
    (File.Save kg0 s3empty file0).1 = none ∧
    (File.Save kg0 s3empty file0).2.2.lookup (kg0 [1, 2, 3]) = some (Blob.bytes [1, 2, 3]) ∧
    (File.Save kg0 s3empty file0).2.1.Extent = [(0, extAfter0)] ∧
    (File.Save kg0 s3empty file0).2.2.lookup "F" =
      some (Blob.file
        { key := "F", meta := meta0, extent_size := 4096, extent := [(0, "old")] }) ∧
    kg0 [1, 2, 3] ≠ "old" := by decide

/-- C2 (code bug): saving two distinct dirty extents with bit-identical
bodies performs exactly one upload for that content (the second task's
existence check hits), but the dedup-hit extent is NOT resolved: its dirty
flag stays true, and neither extent's Key is updated to the shared
content-address. -/
theorem c2_dedup_hit_leaves_dirty :
    (File.Save kg0 s3empty file2).1 = none ∧
    uploadCount (File.Save kg0 s3empty file2).2.2.log (kg0 [7]) = 1 ∧
    (File.Save kg0 s3empty file2).2.1.Extent =
      [(0, { Key := "a", body := [7], dirty := false }),
       (1, { Key := "b", body := [7], dirty := true })] ∧
    kg0 [7] ≠ "a" ∧ kg0 [7] ≠ "b" := by decide

/-- C3 (code bug): the clean-extent invariant (dirty = false and a loaded
body imply the body is the content addressed by Key) is NOT preserved by
File.Save: flushing the dirty extent ext0 clears its dirty flag but leaves
its stale Key "old", producing a clean extent whose body's content-address
differs from its Key. -/
theorem c3_save_breaks_clean_invariant :
    cleanInv kg0 ext0 ∧
    (File.Save kg0 s3empty file0).1 = none ∧
    (File.Save kg0 s3empty file0).2.1.Extent = [(0, extAfter0)] ∧
    ¬ cleanInv kg0 extAfter0 := by decide

/-- C4 (code bug): with two dirty extents of which exactly the first one's
upload deterministically fails, Save() returns the error, the other extent
ends non-dirty and its body is uploaded under its content-address, and the
file's own metadata blob is not uploaded (the store still holds the pre-save
record) — but the flushed extent's recorded Key field "q" is NOT its
content-address, since Save never writes keys back. -/
theorem c4_partial_failure_stale_key :
    (File.Save kg0 s3pre file4).1 = some "upload failed" ∧
    (File.Save kg0 s3pre file4).2.1.Extent =
      [(0, extP), (1, { Key := "q", body := [8], dirty := false })] ∧
    (File.Save kg0 s3pre file4).2.2.lookup (kg0 [8]) = some (Blob.bytes [8]) ∧
    (File.Save kg0 s3pre file4).2.2.lookup "H" = some (Blob.file oldRec) ∧
    uploadCount (File.Save kg0 s3pre file4).2.2.log "H" = 0 ∧
    "q" ≠ kg0 [8] := by decide

/-- C6 counterexample: an extent whose stored blob is empty.  The first
Fill() succeeds and downloads the empty body, but — contrary to the claim —
the second Fill() performs a second download, because a zero-length body is
indistinguishable from an unfilled one in the code's guard. -/
theorem c6_fill_empty_body_redownloads :
    Extent.Fill s3k extEmpty = (none, extEmpty, { s3k with log := [StoreOp.download "k"] }) ∧
    (Extent.Fill (Extent.Fill s3k extEmpty).2.2 (Extent.Fill s3k extEmpty).2.1).1 = none ∧
    (Extent.Fill (Extent.Fill s3k extEmpty).2.2 (Extent.Fill s3k extEmpty).2.1).2.2.log =
      [StoreOp.download "k", StoreOp.download "k"] := by decide

/-- C6 (amended): Fill() is idempotent provided the first call leaves the
extent dirty or with a non-empty body (in particular whenever the downloaded
content is non-empty): the second call performs no download, changes
nothing, and returns success — so it yields the same body as calling Fill
once. -/
theorem c6_fill_idempotent (s3 s1 : S3) (e e1 : Extent)
    (_hfirst : Extent.Fill s3 e = (none, e1, s1))
    (hb : e1.dirty = true ∨ e1.body ≠ []) :
    Extent.Fill s1 e1 = (none, e1, s1) := by
  rcases hb with hd | hne
  · simp [Extent.Fill, hd]
  · have hlen : e1.body.length ≠ 0 := by
      simpa [List.length_eq_zero] using hne
    simp [Extent.Fill, hlen]

/-- Witness for C6: a concrete first Fill downloads the non-empty blob [5],
after which the second Fill is a no-op success. -/
theorem c6_fill_idempotent_witness :
    Extent.Fill s3k2 extK2 = (none, extFilled2, s3k2after) ∧
    (extFilled2.dirty = true ∨ extFilled2.body ≠ []) ∧
    Extent.Fill s3k2after extFilled2 = (none, extFilled2, s3k2after) :=
  ⟨by decide, Or.inr (by decide),
    c6_fill_idempotent s3k2 s3k2after extK2 extFilled2 (by decide) (Or.inr (by decide))⟩

/-- C7: when Fill() performs a download and the store returns an error, the
error is propagated, the extent is unchanged (body still empty, dirty still
false), and a subsequent Fill() on the returned state performs the download
again. -/
theorem c7_fill_error_state_unchanged (s3 : S3) (e : Extent) (err : Err)
    (h1 : e.dirty = false) (h2 : e.body = [])
    (h3 : (s3.Download e.Key).1 = Except.error err) :
    Extent.Fill s3 e = (some err, e, (s3.Download e.Key).2) ∧
      (Extent.Fill (s3.Download e.Key).2 e).2.2.log =
        s3.log ++ [StoreOp.download e.Key, StoreOp.download e.Key] := by
  have h3' : s3.downloadResult e.Key = Except.error err := h3
  constructor
  · simp [Extent.Fill, h1, h2, S3.Download, h3']
  · simp [Extent.Fill, h1, h2, S3.Download, downloadResult_log, h3']

/-- Witness for C7: Fill on an extent whose key has no object in the store
returns the not-found error, leaves the extent unchanged, and retries the
download on the next call. -/
theorem c7_fill_error_state_unchanged_witness :
    extNF.dirty = false ∧ extNF.body = [] ∧
    (s3empty.Download extNF.Key).1 = Except.error "not found" ∧
    (Extent.Fill s3empty extNF = (some "not found", extNF, (s3empty.Download extNF.Key).2) ∧
      (Extent.Fill (s3empty.Download extNF.Key).2 extNF).2.2.log =
        s3empty.log ++ [StoreOp.download extNF.Key, StoreOp.download extNF.Key]) :=
  ⟨rfl, rfl, rfl, c7_fill_error_state_unchanged s3empty extNF "not found" rfl rfl rfl⟩

/-- C9: a dirty extent's Fill() is a success no-op — no store access at all,
even when the body is empty: the dirty guard alone suppresses the
download. -/
theorem c9_dirty_fill_no_store_access (s3 : S3) (e : Extent) (h : e.dirty = true) :
    Extent.Fill s3 e = (none, e, s3) := by
  simp [Extent.Fill, h]

/-- Witness for C9: a dirty extent with an empty body. -/
theorem c9_dirty_fill_no_store_access_witness :
    extDE.dirty = true ∧ extDE.body = [] ∧
    Extent.Fill s3empty extDE = (none, extDE, s3empty) :=
  ⟨rfl, rfl, c9_dirty_fill_no_store_access s3empty extDE rfl⟩

/-- C10: no operation of this core writes an Extent's Key field:
CurrentKey is a pure function of the body, Fill leaves the Key unchanged,
and File.Save leaves every extent's index and Key unchanged, whether the
body was uploaded, dedup-skipped, or the extent was clean. -/
theorem c10_extent_key_never_written :
    (∀ (kg : Bytes → ObjectKey) (e : Extent), Extent.CurrentKey kg e = kg e.body)
    ∧ (∀ (s3 : S3) (e : Extent), ((Extent.Fill s3 e).2.1).Key = e.Key)
    ∧ (∀ (kg : Bytes → ObjectKey) (s3 : S3) (o : File),
        ((File.Save kg s3 o).2.1).Extent.map (fun p => (p.1, p.2.Key)) =
          o.Extent.map (fun p => (p.1, p.2.Key))) := by
  refine ⟨fun kg e => rfl, fill_key, fun kg s3 o => ?_⟩
  unfold File.Save
  split
  · exact saveExtents_keys kg o.Extent s3
  · exact saveExtents_keys kg o.Extent s3

/-- C8 counterexample: a Directory whose own key already holds a stale blob.
Save() succeeds, but the cache-aware upload is a no-op, so the blob at the
directory's key decodes to the stale record, not to the directory's current
persisted fields. -/
theorem c8_roundtrip_fails_when_key_present :
    (Directory.Save s3d0 dirC).1 = none ∧
    ((Directory.Save s3d0 dirC).2.lookup dirC.Key).bind decodeDir = some oldDirRec ∧
    oldDirRec ≠ marshalDir dirC := by decide

/-- C8 (amended): the round-trip holds for every Directory, File and SymLink
whose own key is absent from the store when the metadata blob is uploaded
(for a File this means its key is absent initially and no extent's
content-address collides with it): after a successful Save(), downloading
the blob at the node's own Key and decoding it yields exactly the record of
the node's persisted fields. -/
theorem c8_roundtrip :
    (∀ (s3 : S3) (o : Directory), s3.lookup o.Key = none →
        (Directory.Save s3 o).1 = none →
        ((Directory.Save s3 o).2.lookup o.Key).bind decodeDir = some (marshalDir o))
    ∧ (∀ (kg : Bytes → ObjectKey) (s3 : S3) (o : File), s3.lookup o.Key = none →
        (∀ p ∈ o.Extent, kg p.2.body ≠ o.Key) →
        (File.Save kg s3 o).1 = none →
        ((File.Save kg s3 o).2.2.lookup o.Key).bind decodeFile = some (marshalFile o))
    ∧ (∀ (s3 : S3) (o : SymLink), s3.lookup o.Key = none →
        (SymLink.Save s3 o).1 = none →
        ((SymLink.Save s3 o).2.lookup o.Key).bind decodeSym = some (marshalSym o)) := by
  refine ⟨?_, ?_, ?_⟩
  · intro s3 o h0 hsucc
    have hs := lookup_uploadWithCache_self s3 o.Key (Blob.dir (marshalDir o)) h0 hsucc
    unfold Directory.Save
    rw [hs]
    rfl
  · intro kg s3 o h0 hext hsucc
    cases herr : (saveExtents kg o.Extent s3).1 with
    | some err =>
        exfalso
        unfold File.Save at hsucc
        rw [herr] at hsucc
        simp at hsucc
    | none =>
        have hlook : ((saveExtents kg o.Extent s3).2.2).lookup o.Key = none :=
          (saveExtents_lookup_ne kg o.Extent s3 o.Key hext).trans h0
        unfold File.Save at hsucc ⊢
        rw [herr] at hsucc ⊢
        unfold File.saveMeta at hsucc ⊢
        have hm : marshalFile { o with Extent := (saveExtents kg o.Extent s3).2.1 } =
            marshalFile o := by
          unfold marshalFile
          simp [saveExtents_keys]
        rw [hm] at hsucc ⊢
        have hs := lookup_uploadWithCache_self _ o.Key (Blob.file (marshalFile o)) hlook hsucc
        rw [hs]
        rfl
  · intro s3 o h0 hsucc
    have hs := lookup_uploadWithCache_self s3 o.Key (Blob.sym (marshalSym o)) h0 hsucc
    unfold SymLink.Save
    rw [hs]
    rfl

/-- Witness for C8: the round-trip at a concrete directory, file and symlink
saved into the empty store. -/
theorem c8_roundtrip_witness :
    s3empty.lookup dirW.Key = none ∧ (Directory.Save s3empty dirW).1 = none ∧
    ((Directory.Save s3empty dirW).2.lookup dirW.Key).bind decodeDir =
      some (marshalDir dirW) ∧
    s3empty.lookup file0.Key = none ∧ (∀ p ∈ file0.Extent, kg0 p.2.body ≠ file0.Key) ∧
    (File.Save kg0 s3empty file0).1 = none ∧
    ((File.Save kg0 s3empty file0).2.2.lookup file0.Key).bind decodeFile =
      some (marshalFile file0) ∧
    s3empty.lookup symW.Key = none ∧ (SymLink.Save s3empty symW).1 = none ∧
    ((SymLink.Save s3empty symW).2.lookup symW.Key).bind decodeSym =
      some (marshalSym symW) :=
  ⟨by decide, by decide,
    c8_roundtrip.1 s3empty dirW (by decide) (by decide),
    by decide, by decide, by decide,
    c8_roundtrip.2.1 kg0 s3empty file0 (by decide) (by decide) (by decide),
    by decide, by decide,
    c8_roundtrip.2.2 s3empty symW (by decide) (by decide)⟩
